import Mathlib

/-!
Verification of the SentinelAI governance core (Rust sources under
`src/core/src/`) against its natural-language specification.

The Rust data model (`models.rs`), error taxonomy (`error.rs`), the two
evaluators (`evaluators/keyword_filter.rs`, `evaluators/performance.rs`),
the evaluator registry (`evaluators/mod.rs`) and the CLI evaluation
aggregation (`cli/evaluate.rs`) are shallowly embedded below.

Modelling conventions:
* Rust `f64` scores are modelled as `ℚ`.  Every claim under scrutiny is
  about comparison structure, clamping, and branch selection, never about
  binary rounding, so an exact-arithmetic model is adequate; the single
  place where IEEE `NaN` is observable (`caps_ratio` of empty content, a
  `0.0/0.0`) is modelled explicitly with an `Option ℚ` whose `none` mirrors
  `NaN` (any `NaN > x` comparison is `false`).
* Rust `u32` arithmetic wraps modulo `2^32` (release-build semantics);
  the wrap is written out as `% 2^32` where the source can overflow.
* `Instant::now`/`Uuid::new_v4`/`Utc::now` are environment reads; they
  enter the model as explicit fields of `EvalEnv`.
* The external `regex` crate is out of scope; the evaluator is
  parametrised by an abstract compile function and an abstract
  whole-match function (`captures0`, the `captures.get(0)` text).
* Character predicates use Lean's ASCII `Char.isUpper`/`Char.isWhitespace`
  in place of Rust's Unicode versions; no claim depends on non-ASCII case
  or exotic whitespace.
-/

namespace Sentinel

/-! ## Data model (`src/core/src/models.rs`) -/

/-- Policy types, `models.rs` `PolicyType`. -/
inductive PolicyType
  | KeywordFilter
  | Performance
  | ContentSafety
  | Semantic
deriving DecidableEq

/-- Debug rendering of a policy type, as produced by Rust's derived
`Debug` used in the registry's `format!("... {:?}", policy.policy_type)`. -/
def policyTypeDebug : PolicyType → String
  | .KeywordFilter => "KeywordFilter"
  | .Performance => "Performance"
  | .ContentSafety => "ContentSafety"
  | .Semantic => "Semantic"

/-- Violation actions, `models.rs` `ViolationAction`. -/
inductive ViolationAction
  | Block
  | Warn
  | Log
deriving DecidableEq

/-- Violation severities, `models.rs` `ViolationSeverity`. -/
inductive ViolationSeverity
  | Low
  | Medium
  | High
  | Critical
deriving DecidableEq

/-- Configuration of a keyword-filter policy, `models.rs` `KeywordFilterConfig`. -/
structure KeywordFilterConfig where
  patterns : List String
  case_sensitive : Bool
  action : ViolationAction
deriving DecidableEq

/-- Configuration of a performance policy, `models.rs` `PerformanceConfig`.
`min_quality_score` is an `f64` in the source, modelled as `ℚ`;
`max_tokens` is `Option<u32>`. -/
structure PerformanceConfig where
  max_response_time_ms : Nat
  min_quality_score : ℚ
  max_tokens : Option Nat
  action : ViolationAction
deriving DecidableEq

/-- Configuration of a content-safety policy, `models.rs` `ContentSafetyConfig`. -/
structure ContentSafetyConfig where
  toxicity_threshold : ℚ
  categories : List String
  action : ViolationAction
deriving DecidableEq

/-- Configuration of a semantic policy, `models.rs` `SemanticConfig`. -/
structure SemanticConfig where
  similarity_threshold : ℚ
  reference_texts : List String
  action : ViolationAction
deriving DecidableEq

/-- Policy configuration variants, `models.rs` `PolicyConfig`. -/
inductive PolicyConfig
  | KeywordFilter (config : KeywordFilterConfig)
  | Performance (config : PerformanceConfig)
  | ContentSafety (config : ContentSafetyConfig)
  | Semantic (config : SemanticConfig)
deriving DecidableEq

/-- A policy record, `models.rs` `Policy`.  Timestamps are opaque `Nat`s. -/
structure Policy where
  id : String
  name : String
  description : Option String
  policy_type : PolicyType
  config : PolicyConfig
  enabled : Bool
  organization_id : String
  created_at : Nat
  updated_at : Nat
  created_by : String
deriving DecidableEq

/-- Minimal JSON value model for the `serde_json::Value` payloads built by
the evaluators (only the shapes the source constructs). -/
inductive Json
  | null
  | bool (b : Bool)
  | num (q : ℚ)
  | str (s : String)
  | arr (elems : List Json)
  | obj (fields : List (String × Json))

/-- An evaluation request, `models.rs` `EvaluationRequest`. -/
structure EvaluationRequest where
  id : String
  content : String
  context : Option String
  policies : List String
  metadata : Option Json

/-- Per-policy outcome, `models.rs` `PolicyResult`. -/
inductive PolicyResult
  | Pass
  | Violation (severity : ViolationSeverity) (message : String)
      (confidence : ℚ) (details : Option Json)
  | Error (message : String)

/-- Recognizer for the `PolicyResult::Error` variant. -/
def resultIsError : PolicyResult → Bool
  | .Error _ => true
  | _ => false

/-- An evaluation result, `models.rs` `EvaluationResult`. -/
structure EvaluationResult where
  id : String
  request_id : String
  policy_id : String
  policy_name : String
  policy_type : PolicyType
  result : PolicyResult
  execution_time_ms : Nat
  timestamp : Nat

/-- The error taxonomy of `src/core/src/error.rs` (`enum Error`).  Every
variant carries its message / wrapped-error rendering as a `String`. -/
inductive Error
  | Config (msg : String)
  | Auth (msg : String)
  | Policy (msg : String)
  | Evaluation (msg : String)
  | Network (msg : String)
  | Database (msg : String)
  | Serialization (msg : String)
  | Yaml (msg : String)
  | Io (msg : String)
  | Regex (msg : String)
  | Tracing (msg : String)
  | Generic (msg : String)

/-- Environment reads performed during one evaluator call:
`Uuid::new_v4().to_string()`, `Utc::now()`, and the elapsed milliseconds
measured from `Instant::now()`. -/
structure EvalEnv where
  freshId : String
  nowTs : Nat
  elapsedMs : Nat

/-! ## String helpers shared by the evaluators

Rust's `str::len` is the UTF-8 byte length, `split_whitespace` yields the
maximal non-whitespace runs, and `matches(c).count()` counts occurrences
of a character. -/

/-- UTF-8 encoded size of one character (the Rust `str::len` unit). -/
def charUtf8Size (c : Char) : Nat :=
  if c.val < 0x80 then 1
  else if c.val < 0x800 then 2
  else if c.val < 0x10000 then 3
  else 4

/-- UTF-8 byte length of a character list; models Rust `content.len()`. -/
def utf8Len (s : List Char) : Nat :=
  (s.map charUtf8Size).sum

/-- Helper of `splitWs`: accumulates the current word (reversed). -/
def splitWsAux : List Char → List Char → List (List Char)
  | [], acc => if acc.isEmpty then [] else [acc.reverse]
  | c :: cs, acc =>
    if c.isWhitespace then
      if acc.isEmpty then splitWsAux cs []
      else acc.reverse :: splitWsAux cs []
    else splitWsAux cs (c :: acc)

/-- Rust `str::split_whitespace`: maximal runs of non-whitespace characters. -/
def splitWs (s : List Char) : List (List Char) :=
  splitWsAux s []

/-- Number of distinct elements, the cardinality of the `HashSet` built in
`calculate_quality_score`. -/
def uniqueCount (ws : List (List Char)) : Nat :=
  (ws.foldl (fun acc w => if acc.contains w then acc else w :: acc) []).length

/-- Occurrences of one character, Rust `content.matches(c).count()`. -/
def countChar (s : List Char) (c : Char) : Nat :=
  (s.filter (fun d => d = c)).length

/-! ## Performance evaluator (`src/core/src/evaluators/performance.rs`) -/

/-- The `caps_ratio` of `calculate_quality_score`:
`content.chars().filter(is_uppercase).count() as f64 / content.len() as f64`.
The division has no zero guard; for empty content it is `0.0/0.0 = NaN`,
modelled as `none`. -/
def caps_frac (content : String) : Option ℚ :=
  if utf8Len content.data = 0 then none
  else some (((content.data.filter Char.isUpper).length : ℚ) / (utf8Len content.data : ℚ))

/-- Comparison `x > y` where `x` may be `NaN`; IEEE comparisons against
`NaN` are false, so `none > y` is `false`. -/
def gtNaN : Option ℚ → ℚ → Bool
  | none, _ => false
  | some x, y => decide (x > y)

/-- The quality heuristic `PerformanceEvaluator::calculate_quality_score`,
transcribed step for step: length penalties, repetition penalty (guarded
by `words.len() > 0`), capitalization penalty (unguarded division,
see `caps_frac`), sentence-structure reward, then
`score.min(1.0).max(0.0)`. -/
def calculate_quality_score (content : String) : ℚ :=
  let score0 : ℚ := 1
  let score1 : ℚ :=
    if utf8Len content.data < 10 then score0 * (3/10)
    else if utf8Len content.data < 50 then score0 * (7/10)
    else score0
  let words := splitWs content.data
  let score2 : ℚ :=
    if words.length > 0 then
      score1 * ((uniqueCount words : ℚ) / (words.length : ℚ))
    else score1
  let score3 : ℚ :=
    if gtNaN (caps_frac content) (3/10) then score2 * (8/10) else score2
  let sentence_count :=
    countChar content.data '.' + countChar content.data '!' + countChar content.data '?'
  let score4 : ℚ := if sentence_count > 0 then score3 * (11/10) else score3
  max (min score4 1) 0

/-- The token counter `PerformanceEvaluator::count_tokens`:
whitespace-delimited word count, cast `as u32` (truncating). -/
def count_tokens (content : String) : Nat :=
  (splitWs content.data).length % 2 ^ 32

/-- Decimal rendering stand-in for Rust's `Display` of `f64` inside the
violation message strings.  No claim inspects these numeric substrings;
only a fixed total function is needed. -/
def fmtQ (q : ℚ) : String :=
  toString q.num ++ "/" ++ toString q.den

/-- Severity selection of `PerformanceEvaluator::evaluate`:
`quality_score < 0.3 || token_count > config.max_tokens.unwrap_or(u32::MAX) * 2`.
The `u32` multiply wraps modulo `2^32` (release-build semantics; a debug
build panics on the overflow when `max_tokens` is absent). -/
def perfSeverity (quality_score : ℚ) (token_count : Nat) (max_tokens : Option Nat) :
    ViolationSeverity :=
  if quality_score < 3/10 ∨ token_count > (max_tokens.getD (2 ^ 32 - 1)) * 2 % 2 ^ 32 then
    ViolationSeverity.High
  else
    ViolationSeverity.Medium

/-- The body of `PerformanceEvaluator::evaluate`: config match, quality and
token measurements, the three violation checks, severity and confidence,
and the result record with `policy_type` fixed to `Performance`. -/
def performanceEvaluate (env : EvalEnv) (request : EvaluationRequest) (policy : Policy) :
    Except Error EvaluationResult :=
  match policy.config with
  | .Performance config =>
    let quality_score := calculate_quality_score request.content
    let token_count := count_tokens request.content
    let execution_time := env.elapsedMs
    let v1 : List String :=
      if quality_score < config.min_quality_score then
        ["Quality score " ++ fmtQ quality_score ++ " below threshold " ++
          fmtQ config.min_quality_score]
      else []
    let v2 : List String :=
      match config.max_tokens with
      | some max_tokens =>
        if token_count > max_tokens then
          ["Token count " ++ toString token_count ++ " exceeds limit " ++ toString max_tokens]
        else []
      | none => []
    let v3 : List String :=
      if execution_time > config.max_response_time_ms then
        ["Response time " ++ toString execution_time ++ "ms exceeds limit " ++
          toString config.max_response_time_ms ++ "ms"]
      else []
    let violations := v1 ++ v2 ++ v3
    let result :=
      if violations.isEmpty then PolicyResult.Pass
      else
        PolicyResult.Violation
          (perfSeverity quality_score token_count config.max_tokens)
          ("Performance violations: " ++ String.intercalate ", " violations)
          (9/10)
          (some (.obj
            [("quality_score", .num quality_score),
             ("token_count", .num (token_count : ℚ)),
             ("execution_time_ms", .num (execution_time : ℚ)),
             ("violations", .arr (violations.map .str))]))
    .ok
      { id := env.freshId
        request_id := request.id
        policy_id := policy.id
        policy_name := policy.name
        policy_type := PolicyType.Performance
        result := result
        execution_time_ms := execution_time
        timestamp := env.nowTs }
  | _ => .error (.Evaluation "Invalid policy config for performance evaluator")

/-! ## Keyword-filter evaluator (`src/core/src/evaluators/keyword_filter.rs`)

The evaluator is parametrised by the external `regex` crate: `compile`
models `Regex::new` (failing with the rendered `regex::Error`) and
`captures0` models `regex.captures(content)` projected to the whole-match
text `captures.get(0).unwrap().as_str()`. -/

/-- The `DashMap<String, Regex>` field `regex_cache`, modelled as an
association list keyed by the cache-key string (most recent insert first). -/
def RegexCache (R : Type) : Type := List (String × R)

/-- Lookup in the cache, `self.regex_cache.get(&cache_key)`. -/
def lookupCache {R : Type} (cache : RegexCache R) (key : String) : Option R :=
  match cache.find? (fun e => e.1 = key) with
  | some e => some e.2
  | none => none

/-- The cache key `format!("{}:{}", pattern, case_sensitive)`. -/
def cacheKey (pattern : String) (case_sensitive : Bool) : String :=
  pattern ++ ":" ++ (if case_sensitive then "true" else "false")

/-- The pattern actually handed to `Regex::new`: the raw pattern when
case-sensitive, else `format!("(?i){}", pattern)`. -/
def regexSource (pattern : String) (case_sensitive : Bool) : String :=
  if case_sensitive then pattern else "(?i)" ++ pattern

section KeywordFilter

variable {R : Type} (compile : String → Except String R)
  (captures0 : R → String → Option String)

/-- The method `KeywordFilterEvaluator::get_or_compile_regex`.  Returns the
resolved regex, the cache after the call, and whether a compilation
happened (the observable compile count of this call).  A failing
`Regex::new` surfaces as `Error::Regex` via the `?` / `#[from]` conversion. -/
def getOrCompileRegex (cache : RegexCache R) (pattern : String) (case_sensitive : Bool) :
    Except Error (R × RegexCache R × Bool) :=
  let cache_key := cacheKey pattern case_sensitive
  match lookupCache cache cache_key with
  | some regex => .ok (regex, cache, false)
  | none =>
    match compile (regexSource pattern case_sensitive) with
    | .error e => .error (.Regex e)
    | .ok regex => .ok (regex, (cache_key, regex) :: cache, true)

/-- The regex a pattern resolves to against a fixed cache: the cached entry
on a hit, a fresh compilation on a miss.  This is the pure value content of
`getOrCompileRegex`, used to state the loop theorems. -/
def resolvedRegex (cache : RegexCache R) (pattern : String) (case_sensitive : Bool) :
    Except Error R :=
  match lookupCache cache (cacheKey pattern case_sensitive) with
  | some regex => .ok regex
  | none =>
    match compile (regexSource pattern case_sensitive) with
    | .error e => .error (.Regex e)
    | .ok regex => .ok regex

/-- The pattern loop of `KeywordFilterEvaluator::evaluate`: for each
pattern in order, resolve via the cache (aborting the whole evaluation on
a compile error) and record `format!("Pattern '{}' matched: '{}'")` when
the regex matches anywhere in the content. -/
def kwLoop (content : String) (case_sensitive : Bool) :
    List String → RegexCache R → Except Error (List String × RegexCache R)
  | [], cache => .ok ([], cache)
  | pattern :: rest, cache =>
    match getOrCompileRegex compile cache pattern case_sensitive with
    | .error e => .error e
    | .ok (regex, cache', _) =>
      let here : List String :=
        match captures0 regex content with
        | some matched_text =>
          ["Pattern '" ++ pattern ++ "' matched: '" ++ matched_text ++ "'"]
        | none => []
      match kwLoop content case_sensitive rest cache' with
      | .error e => .error e
      | .ok (violations, cacheF) => .ok (here ++ violations, cacheF)

/-- The body of `KeywordFilterEvaluator::evaluate`: config match, the
pattern loop, then `Pass` when no pattern matched, else a `Medium`
violation with confidence `1.0`, the joined message, and the structured
details payload.  The returned pair carries the cache left behind by the
call (the mutation of the `regex_cache` field). -/
def keywordFilterEvaluate (cache : RegexCache R) (env : EvalEnv)
    (request : EvaluationRequest) (policy : Policy) :
    Except Error (EvaluationResult × RegexCache R) :=
  match policy.config with
  | .KeywordFilter config =>
    match kwLoop compile captures0 request.content config.case_sensitive
        config.patterns cache with
    | .error e => .error e
    | .ok (violations, cache') =>
      let result :=
        if violations.isEmpty then PolicyResult.Pass
        else
          PolicyResult.Violation
            ViolationSeverity.Medium
            ("Keyword filter violations: " ++ String.intercalate ", " violations)
            1
            (some (.obj
              [("violations", .arr (violations.map .str)),
               ("patterns_checked", .num (config.patterns.length : ℚ)),
               ("case_sensitive", .bool config.case_sensitive)]))
      .ok
        ({ id := env.freshId
           request_id := request.id
           policy_id := policy.id
           policy_name := policy.name
           policy_type := PolicyType.KeywordFilter
           result := result
           execution_time_ms := env.elapsedMs
           timestamp := env.nowTs }, cache')
  | _ => .error (.Evaluation "Invalid policy config for keyword filter")

/-- The compile count accumulated over `n` further sequential calls of
`get_or_compile_regex` with one fixed key, threading the cache. -/
def iterateCompileCount (pattern : String) (case_sensitive : Bool) :
    Nat → RegexCache R → Nat
  | 0, _ => 0
  | n + 1, cache =>
    match getOrCompileRegex compile cache pattern case_sensitive with
    | .ok (_, cache', didCompile) =>
      (if didCompile then 1 else 0) +
        iterateCompileCount pattern case_sensitive n cache'
    | .error _ => iterateCompileCount pattern case_sensitive n cache

/-! ## Evaluator registry (`src/core/src/evaluators/mod.rs`) -/

/-- One registered evaluator as the registry sees it: its
`supports_policy_type` predicate and its `evaluate` entry point. -/
structure EvaluatorSpec where
  supports : PolicyType → Bool
  run : EvaluationRequest → Policy → Except Error EvaluationResult

/-- The scan of `EvaluatorRegistry::evaluate`: the first evaluator in
registration order whose `supports_policy_type` accepts the policy's type
is dispatched to; with none, the `Error::Evaluation` formatted with the
`Debug` of the policy type is returned. -/
def registryDispatch (evaluators : List EvaluatorSpec)
    (request : EvaluationRequest) (policy : Policy) : Except Error EvaluationResult :=
  match evaluators.find? (fun e => e.supports policy.policy_type) with
  | some e => e.run request policy
  | none =>
    .error (.Evaluation
      ("No evaluator found for policy type: " ++ policyTypeDebug policy.policy_type))

/-- `KeywordFilterEvaluator::supports_policy_type`:
`matches!(policy_type, PolicyType::KeywordFilter)`. -/
def kwSupports : PolicyType → Bool
  | .KeywordFilter => true
  | _ => false

/-- `PerformanceEvaluator::supports_policy_type`:
`matches!(policy_type, PolicyType::Performance)`. -/
def perfSupports : PolicyType → Bool
  | .Performance => true
  | _ => false

/-- The keyword-filter evaluator as a registry entry, with its internal
cache state fixed for the call; the cache mutation is internal to the
evaluator and invisible to the registry's return type. -/
def kwSpec (cache : RegexCache R) (env : EvalEnv) : EvaluatorSpec :=
  { supports := kwSupports
    run := fun request policy =>
      (keywordFilterEvaluate compile captures0 cache env request policy).map Prod.fst }

/-- The performance evaluator as a registry entry. -/
def perfSpec (env : EvalEnv) : EvaluatorSpec :=
  { supports := perfSupports
    run := performanceEvaluate env }

/-- The registry built by `EvaluatorRegistry::new`: the keyword-filter
evaluator registered first, the performance evaluator second. -/
def defaultRegistry (cache : RegexCache R) (env : EvalEnv) : List EvaluatorSpec :=
  [kwSpec compile captures0 cache env, perfSpec env]

/-- `EvaluatorRegistry::evaluate` against the default registry. -/
def registryEvaluate (cache : RegexCache R) (env : EvalEnv)
    (request : EvaluationRequest) (policy : Policy) : Except Error EvaluationResult :=
  registryDispatch (defaultRegistry compile captures0 cache env) request policy

end KeywordFilter

/-! ## CLI evaluation aggregation (`src/core/src/cli/evaluate.rs`)

`handle_evaluate` runs the keyword-filter evaluator and then the
performance evaluator and aggregates with
`if let Ok(result) = ... { results.push(result) }` for each: an `Err`
outcome is dropped without an entry.  The two call outcomes enter the
model as inputs (the CLI invokes the evaluators with its own request
shape); the aggregation of the outcomes is the behaviour under scrutiny.
The `--timeout` argument (clap default `"5000"`) is carried as a parameter
exactly as far as the source carries it: it is parsed and printed under
`--verbose` but never consulted by the evaluation flow. -/

/-- The `if let Ok(result) = ... { results.push(result) }` step. -/
def pushIfOk (outcome : Except Error EvaluationResult) : List EvaluationResult :=
  match outcome with
  | .ok r => [r]
  | .error _ => []

/-- The clap default of the `--timeout` argument, `default_value = "5000"`. -/
def evaluateDefaultTimeout : Nat := 5000

/-- The result aggregation of `handle_evaluate` (lines 54-66): keyword
outcome first, performance outcome second, each appended only on `Ok`. -/
def handleEvaluateResults (kwOutcome perfOutcome : Except Error EvaluationResult)
    (_timeoutMs : Nat) : List EvaluationResult :=
  pushIfOk kwOutcome ++ pushIfOk perfOutcome

/-! ## Auxiliary definitions used by the theorems -/

/-- Boolean success test for `Except` (the shape of `Result::is_ok`). -/
def exceptOk {ε α : Type} : Except ε α → Bool
  | .ok _ => true
  | .error _ => false

/-- The violation record one pattern contributes when its regex matches:
`format!("Pattern '{}' matched: '{}'", pattern, matched_text)`. -/
def kwRecord {R : Type} (captures0 : R → String → Option String)
    (content : String) (regex : R) (pattern : String) : Option String :=
  (captures0 regex content).map
    (fun matched_text => "Pattern '" ++ pattern ++ "' matched: '" ++ matched_text ++ "'")

/-- Declarative description of the violation list the pattern loop
produces: every pattern, in declaration order, resolved against the cache
state at the start of the call, contributing one record when it matches. -/
def kwExpected {R : Type} (compile : String → Except String R)
    (captures0 : R → String → Option String) (cache : RegexCache R)
    (case_sensitive : Bool) (content : String) (patterns : List String) : List String :=
  patterns.filterMap (fun pattern =>
    match resolvedRegex compile cache pattern case_sensitive with
    | .ok regex => kwRecord captures0 content regex pattern
    | .error _ => none)

/-- A miniature stand-in for `Regex::new` used to instantiate the
engine-parametric theorems at concrete inputs: compiled form is the
source text, and the single pattern "(" fails to compile. -/
def toyCompile : String → Except String String :=
  fun pattern =>
    if pattern = "(" then .error "regex parse error: unclosed group" else .ok pattern

/-- A miniature stand-in for `Regex::captures` paired with `toyCompile`:
the whole content matches exactly when it equals the pattern text. -/
def toyCaptures : String → String → Option String :=
  fun pattern content => if pattern = content then some content else none

/-! ## Concrete fixtures for witnesses and counterexamples -/

/-- An environment fixture. -/
def envW : EvalEnv := { freshId := "uuid-1", nowTs := 5, elapsedMs := 0 }

/-- A request with empty content. -/
def reqEmpty : EvaluationRequest :=
  { id := "req-1", content := "", context := none, policies := [], metadata := none }

/-- A request whose content is the word "hello". -/
def reqHello : EvaluationRequest :=
  { id := "req-1", content := "hello", context := none, policies := [], metadata := none }

/-- A keyword-filter policy whose single pattern "(" fails to compile
under `toyCompile`. -/
def kwBadPolicy : Policy :=
  { id := "pol-bad", name := "Bad", description := none
    policy_type := PolicyType.KeywordFilter
    config := .KeywordFilter { patterns := ["("], case_sensitive := true, action := .Block }
    enabled := true, organization_id := "org-1"
    created_at := 0, updated_at := 0, created_by := "alex" }

/-- A keyword-filter-configured policy whose declared `policy_type` is
`Semantic`: the evaluator matches on the config, not on the type field. -/
def kwSemMismatch : Policy :=
  { id := "pol-kw", name := "KW", description := none
    policy_type := PolicyType.Semantic
    config := .KeywordFilter { patterns := ["hello"], case_sensitive := true, action := .Warn }
    enabled := true, organization_id := "org-1"
    created_at := 0, updated_at := 0, created_by := "alex" }

/-- A keyword-filter policy with two patterns, of which only "hello"
matches the content of `reqHello` under the toy engine. -/
def kwTwoPatterns : Policy :=
  { id := "pol-two", name := "Two", description := none
    policy_type := PolicyType.KeywordFilter
    config := .KeywordFilter { patterns := ["hello", "bye"], case_sensitive := true, action := .Block }
    enabled := true, organization_id := "org-1"
    created_at := 0, updated_at := 0, created_by := "alex" }

/-- A keyword-filter policy whose second pattern "(" fails to compile: the
first pattern matches `reqHello`, the third would match as well, but the
whole evaluation aborts at the second. -/
def kwPreBadPolicy : Policy :=
  { id := "pol-prebad", name := "PreBad", description := none
    policy_type := PolicyType.KeywordFilter
    config := .KeywordFilter
      { patterns := ["hello", "(", "bye"], case_sensitive := true, action := .Block }
    enabled := true, organization_id := "org-1"
    created_at := 0, updated_at := 0, created_by := "alex" }

/-- A performance policy that passes on empty content: no minimum quality,
no token bound, generous time budget. -/
def perfPolicyW : Policy :=
  { id := "pol-perf", name := "Perf", description := none
    policy_type := PolicyType.Performance
    config := .Performance
      { max_response_time_ms := 1000, min_quality_score := 0
        max_tokens := none, action := .Log }
    enabled := true, organization_id := "org-1"
    created_at := 0, updated_at := 0, created_by := "alex" }

/-- A semantic policy (a type no evaluator claims). -/
def semPolicyW : Policy :=
  { id := "pol-sem", name := "Sem", description := none
    policy_type := PolicyType.Semantic
    config := .Semantic { similarity_threshold := 1/2, reference_texts := [], action := .Block }
    enabled := true, organization_id := "org-1"
    created_at := 0, updated_at := 0, created_by := "alex" }

/-- A content-safety policy (a type no evaluator claims). -/
def csPolicyW : Policy :=
  { id := "pol-cs", name := "CS", description := none
    policy_type := PolicyType.ContentSafety
    config := .ContentSafety { toxicity_threshold := 1/2, categories := [], action := .Block }
    enabled := true, organization_id := "org-1"
    created_at := 0, updated_at := 0, created_by := "alex" }

/-- A policy whose declared type is `KeywordFilter` but whose config is the
`Performance` variant: the keyword evaluator rejects it with the generic
`Error::Evaluation` config-mismatch message. -/
def mismatchPolicyW : Policy :=
  { id := "pol-mm", name := "MM", description := none
    policy_type := PolicyType.KeywordFilter
    config := .Performance
      { max_response_time_ms := 1000, min_quality_score := 0
        max_tokens := none, action := .Log }
    enabled := true, organization_id := "org-1"
    created_at := 0, updated_at := 0, created_by := "alex" }

/-! ## Helper lemmas -/

theorem cacheKey_data_true (l : List Char) :
    (cacheKey (String.mk l) true).data = l ++ [':', 't', 'r', 'u', 'e'] := by
  simp [cacheKey, String.data_append]

theorem cacheKey_data_false (l : List Char) :
    (cacheKey (String.mk l) false).data = l ++ [':', 'f', 'a', 'l', 's', 'e'] := by
  simp [cacheKey, String.data_append]

/-- The `format!("{}:{}", pattern, case_sensitive)` key is collision-free:
the two possible boolean suffixes ":true" and ":false" cannot align when
appended to different patterns. -/
theorem cacheKey_inj {p1 p2 : String} {c1 c2 : Bool}
    (h : cacheKey p1 c1 = cacheKey p2 c2) : p1 = p2 ∧ c1 = c2 := by
  obtain ⟨l1⟩ := p1
  obtain ⟨l2⟩ := p2
  have hd := congrArg String.data h
  cases c1 <;> cases c2
  · rw [cacheKey_data_false, cacheKey_data_false] at hd
    exact ⟨congrArg String.mk (List.append_cancel_right hd), rfl⟩
  · rw [cacheKey_data_false, cacheKey_data_true] at hd
    exfalso
    have h2 := congrArg List.reverse hd
    simp [List.reverse_append] at h2
  · rw [cacheKey_data_true, cacheKey_data_false] at hd
    exfalso
    have h2 := congrArg List.reverse hd
    simp [List.reverse_append] at h2
  · rw [cacheKey_data_true, cacheKey_data_true] at hd
    exact ⟨congrArg String.mk (List.append_cancel_right hd), rfl⟩

theorem lookupCache_cons {R : Type} (k : String) (v : R) (c : RegexCache R) (key : String) :
    lookupCache ((k, v) :: c) key = if k = key then some v else lookupCache c key := by
  by_cases h : k = key <;> simp [lookupCache, List.find?, h]

section KeywordFilterLemmas

variable {R : Type} {compile : String → Except String R}
  {captures0 : R → String → Option String}

theorem getOrCompile_of_resolved_ok {cache : RegexCache R} {p : String} {cs : Bool} {r : R}
    (h : resolvedRegex compile cache p cs = .ok r) :
    ∃ cache' b, getOrCompileRegex compile cache p cs = .ok (r, cache', b) ∧
      ∀ q ds, resolvedRegex compile cache' q ds = resolvedRegex compile cache q ds := by
  simp only [resolvedRegex] at h
  simp only [getOrCompileRegex]
  cases hlook : lookupCache cache (cacheKey p cs) with
  | some u =>
    simp only [hlook, Except.ok.injEq] at h
    subst h
    exact ⟨cache, false, rfl, fun _ _ => rfl⟩
  | none =>
    simp only [hlook] at h
    cases hc : compile (regexSource p cs) with
    | error e =>
      simp only [hc] at h
      exact Except.noConfusion h
    | ok u =>
      simp only [hc, Except.ok.injEq] at h
      subst h
      refine ⟨_, true, rfl, fun q ds => ?_⟩
      simp only [resolvedRegex, lookupCache_cons]
      by_cases hk : cacheKey p cs = cacheKey q ds
      · obtain ⟨hp, hcs⟩ := cacheKey_inj hk
        subst hp; subst hcs
        rw [if_pos rfl]
        simp [hlook, hc]
      · simp only [if_neg hk]

theorem getOrCompile_of_resolved_error {cache : RegexCache R} {p : String} {cs : Bool}
    {e : Error} (h : resolvedRegex compile cache p cs = .error e) :
    getOrCompileRegex compile cache p cs = .error e := by
  simp only [resolvedRegex] at h
  simp only [getOrCompileRegex]
  cases hlook : lookupCache cache (cacheKey p cs) with
  | some u =>
    simp only [hlook] at h
    exact Except.noConfusion h
  | none =>
    simp only [hlook] at h
    cases hc : compile (regexSource p cs) with
    | error e' => simp only [hc, Except.error.injEq] at h; simp only [hlook, hc, h]
    | ok u =>
      simp only [hc] at h
      exact Except.noConfusion h

/-- A call that succeeded leaves the cache in a state where the same key
hits: the repeat call returns the same compiled regex, changes nothing,
and performs no compilation. -/
theorem getOrCompile_repeat {cache cache' : RegexCache R} {p : String} {cs : Bool}
    {r : R} {b : Bool}
    (h : getOrCompileRegex compile cache p cs = .ok (r, cache', b)) :
    getOrCompileRegex compile cache' p cs = .ok (r, cache', false) := by
  simp only [getOrCompileRegex] at h
  cases hlook : lookupCache cache (cacheKey p cs) with
  | some u =>
    simp only [hlook, Except.ok.injEq, Prod.mk.injEq] at h
    obtain ⟨h1, h2, h3⟩ := h
    subst h1; subst h2
    simp only [getOrCompileRegex, hlook]
  | none =>
    simp only [hlook] at h
    cases hc : compile (regexSource p cs) with
    | error e =>
      simp only [hc] at h
      exact Except.noConfusion h
    | ok u =>
      simp only [hc, Except.ok.injEq, Prod.mk.injEq] at h
      obtain ⟨h1, h2, h3⟩ := h
      subst h1; subst h2
      simp [getOrCompileRegex, lookupCache_cons]

theorem iterateCompileCount_eq_zero {cache cache' : RegexCache R} {p : String} {cs : Bool}
    {r : R} {b : Bool}
    (h : getOrCompileRegex compile cache p cs = .ok (r, cache', b)) :
    ∀ n, iterateCompileCount compile p cs n cache' = 0 := by
  intro n
  induction n with
  | zero => rfl
  | succ m ih =>
    have hr := getOrCompile_repeat h
    simp only [iterateCompileCount, hr, if_neg Bool.false_ne_true, Nat.zero_add]
    exact ih

/-- A successful call for one key does not disturb the entry any other key
resolves to. -/
theorem getOrCompile_preserves_other {cache cache' : RegexCache R}
    {p : String} {cs : Bool} {r : R} {b : Bool} {q : String} {ds : Bool}
    (hne : (q, ds) ≠ (p, cs))
    (h : getOrCompileRegex compile cache p cs = .ok (r, cache', b)) :
    lookupCache cache' (cacheKey q ds) = lookupCache cache (cacheKey q ds) := by
  simp only [getOrCompileRegex] at h
  cases hlook : lookupCache cache (cacheKey p cs) with
  | some u =>
    simp only [hlook, Except.ok.injEq, Prod.mk.injEq] at h
    obtain ⟨h1, h2, h3⟩ := h
    subst h2
    rfl
  | none =>
    simp only [hlook] at h
    cases hc : compile (regexSource p cs) with
    | error e =>
      simp only [hc] at h
      exact Except.noConfusion h
    | ok u =>
      simp only [hc, Except.ok.injEq, Prod.mk.injEq] at h
      obtain ⟨h1, h2, h3⟩ := h
      subst h2
      rw [lookupCache_cons, if_neg]
      intro hk
      exact hne (by
        obtain ⟨hp, hcs⟩ := cacheKey_inj hk.symm
        rw [hp, hcs])

theorem kwExpected_congr {cache cache' : RegexCache R} {cs : Bool} {content : String}
    (patterns : List String)
    (hinv : ∀ q ds, resolvedRegex compile cache' q ds = resolvedRegex compile cache q ds) :
    kwExpected compile captures0 cache' cs content patterns =
      kwExpected compile captures0 cache cs content patterns := by
  unfold kwExpected
  induction patterns with
  | nil => rfl
  | cons p rest ih => simp [List.filterMap_cons, hinv, ih]

/-- The pattern loop under successful resolution of every pattern: it
returns exactly the declaration-ordered accumulation described by
`kwExpected` over the initial cache, and the final cache resolves every
key as the initial one did. -/
theorem kwLoop_ok_of_all_ok {cache : RegexCache R} {cs : Bool} {content : String}
    {patterns : List String}
    (h : ∀ p ∈ patterns, exceptOk (resolvedRegex compile cache p cs) = true) :
    ∃ cache', kwLoop compile captures0 content cs patterns cache =
        .ok (kwExpected compile captures0 cache cs content patterns, cache') ∧
      ∀ q ds, resolvedRegex compile cache' q ds = resolvedRegex compile cache q ds := by
  induction patterns generalizing cache with
  | nil => exact ⟨cache, rfl, fun _ _ => rfl⟩
  | cons p rest ih =>
    have hp := h p (List.mem_cons_self p rest)
    obtain ⟨r, hr⟩ : ∃ r, resolvedRegex compile cache p cs = .ok r := by
      cases hres : resolvedRegex compile cache p cs with
      | error e => rw [hres] at hp; exact absurd hp (by simp [exceptOk])
      | ok r => exact ⟨r, rfl⟩
    obtain ⟨cache1, b, hg, hinv1⟩ := getOrCompile_of_resolved_ok hr
    have hrest : ∀ q ∈ rest, exceptOk (resolvedRegex compile cache1 q cs) = true := by
      intro q hq
      rw [hinv1]
      exact h q (List.mem_cons_of_mem p hq)
    obtain ⟨cache2, hloop, hinv2⟩ := ih hrest
    refine ⟨cache2, ?_, fun q ds => (hinv2 q ds).trans (hinv1 q ds)⟩
    simp only [kwLoop, hg, hloop]
    rw [kwExpected_congr rest hinv1]
    cases hcap : captures0 r content <;>
      simp [kwExpected, List.filterMap_cons, hr, kwRecord, hcap]

/-- The pattern loop aborts with the compile error of the first
non-resolving pattern: the patterns after it are never consulted. -/
theorem kwLoop_error_of_bad {cache : RegexCache R} {cs : Bool} {content : String}
    {pre : List String} {bad : String} {e : Error}
    (hpre : ∀ p ∈ pre, exceptOk (resolvedRegex compile cache p cs) = true)
    (hbad : resolvedRegex compile cache bad cs = .error e) (rest : List String) :
    kwLoop compile captures0 content cs (pre ++ bad :: rest) cache = .error e := by
  induction pre generalizing cache with
  | nil =>
    rw [List.nil_append]
    simp only [kwLoop, getOrCompile_of_resolved_error hbad]
  | cons p pre' ih =>
    have hp := hpre p (List.mem_cons_self p pre')
    obtain ⟨r, hr⟩ : ∃ r, resolvedRegex compile cache p cs = .ok r := by
      cases hres : resolvedRegex compile cache p cs with
      | error e' => rw [hres] at hp; exact absurd hp (by simp [exceptOk])
      | ok r => exact ⟨r, rfl⟩
    obtain ⟨cache1, b, hg, hinv1⟩ := getOrCompile_of_resolved_ok hr
    have hpre' : ∀ q ∈ pre', exceptOk (resolvedRegex compile cache1 q cs) = true := by
      intro q hq
      rw [hinv1]
      exact hpre q (List.mem_cons_of_mem p hq)
    have hbad1 : resolvedRegex compile cache1 bad cs = .error e := by
      rw [hinv1]; exact hbad
    rw [List.cons_append]
    simp only [kwLoop, hg, ih hpre' hbad1]

end KeywordFilterLemmas

theorem empty_content_data : ("" : String).data = [] := rfl

/-- On empty content the length branch multiplies by 0.3, the repetition
branch is skipped (no words), the capitalization branch is skipped (its
`NaN` comparison is false), no sentence reward applies, and the clamp
leaves 0.3. -/
theorem quality_score_empty : calculate_quality_score "" = 3/10 := by
  unfold calculate_quality_score
  rw [empty_content_data]
  norm_num [utf8Len, splitWs, splitWsAux, caps_frac, gtNaN, countChar, empty_content_data]

theorem count_tokens_empty : count_tokens "" = 0 := rfl

/-- The performance evaluator passes the fixture policy on empty content. -/
theorem perf_eval_empty_pass :
    performanceEvaluate { freshId := "uuid-2", nowTs := 5, elapsedMs := 0 } reqEmpty perfPolicyW =
      .ok { id := "uuid-2", request_id := "req-1", policy_id := "pol-perf"
            policy_name := "Perf", policy_type := PolicyType.Performance
            result := .Pass, execution_time_ms := 0, timestamp := 5 } := by
  simp only [performanceEvaluate, perfPolicyW, reqEmpty]
  norm_num [quality_score_empty, count_tokens_empty]

/-! ## Claims -/

/-- C1 (counterexample): the claim says a failing evaluator call is
recorded as a `PolicyResult::Error` entry in the aggregated list.  In
`handle_evaluate` the keyword evaluator fails (invalid pattern "(") yet
the aggregate contains exactly one entry — the performance evaluator's
`Pass` — and no entry whose result is the `Error` variant: the failure is
silently dropped by `if let Ok(result) = ... { results.push(result) }`. -/
theorem c1_counterexample :
    handleEvaluateResults
        ((keywordFilterEvaluate toyCompile toyCaptures ([] : RegexCache String)
            { freshId := "uuid-1", nowTs := 5, elapsedMs := 0 } reqEmpty kwBadPolicy).map Prod.fst)
        (performanceEvaluate { freshId := "uuid-2", nowTs := 5, elapsedMs := 0 } reqEmpty perfPolicyW)
        evaluateDefaultTimeout =
      [{ id := "uuid-2", request_id := "req-1", policy_id := "pol-perf"
         policy_name := "Perf", policy_type := PolicyType.Performance
         result := .Pass, execution_time_ms := 0, timestamp := 5 }] ∧
    (handleEvaluateResults
        ((keywordFilterEvaluate toyCompile toyCaptures ([] : RegexCache String)
            { freshId := "uuid-1", nowTs := 5, elapsedMs := 0 } reqEmpty kwBadPolicy).map Prod.fst)
        (performanceEvaluate { freshId := "uuid-2", nowTs := 5, elapsedMs := 0 } reqEmpty perfPolicyW)
        evaluateDefaultTimeout).all (fun r => !resultIsError r.result) = true := by
  have h1 :
      handleEvaluateResults
          ((keywordFilterEvaluate toyCompile toyCaptures ([] : RegexCache String)
              { freshId := "uuid-1", nowTs := 5, elapsedMs := 0 } reqEmpty kwBadPolicy).map Prod.fst)
          (performanceEvaluate { freshId := "uuid-2", nowTs := 5, elapsedMs := 0 } reqEmpty perfPolicyW)
          evaluateDefaultTimeout =
        [{ id := "uuid-2", request_id := "req-1", policy_id := "pol-perf"
           policy_name := "Perf", policy_type := PolicyType.Performance
           result := .Pass, execution_time_ms := 0, timestamp := 5 }] := by
    rw [perf_eval_empty_pass]
    rfl
  exact ⟨h1, by rw [h1]; rfl⟩

/-- C1 (amended): a failing evaluator call in `handle_evaluate` is
silently skipped — it contributes no entry at all to the aggregated
result list, in particular no `PolicyResult::Error` entry — while the
other evaluator's `Ok` result still runs and appears (per-policy
isolation does hold). -/
theorem c1_amended_failure_silently_dropped (e e2 : Error) (r : EvaluationResult) (t : Nat) :
    handleEvaluateResults (.error e) (.ok r) t = [r] ∧
    handleEvaluateResults (.ok r) (.error e) t = [r] ∧
    handleEvaluateResults (.error e) (.error e2) t = [] :=
  ⟨rfl, rfl, rfl⟩

/-- C2 (counterexample): the claim says the no-evaluator path fails with a
dedicated `UnsupportedPolicyTypeError` carrying the policy type.  The
embedded `error.rs` enum has no such variant: the registry returns the
generic `Error::Evaluation` — the same constructor the keyword evaluator
uses for an ordinary config-mismatch failure — with the type only
rendered inside the message text. -/
theorem c2_counterexample :
    registryEvaluate toyCompile toyCaptures ([] : RegexCache String) envW reqEmpty semPolicyW =
      .error (.Evaluation "No evaluator found for policy type: Semantic") ∧
    keywordFilterEvaluate toyCompile toyCaptures ([] : RegexCache String) envW reqEmpty
        mismatchPolicyW =
      .error (.Evaluation "Invalid policy config for keyword filter") :=
  ⟨rfl, rfl⟩

/-- C2 (amended): against the default registry, a `ContentSafety` or
`Semantic` policy fails with the generic `Error::Evaluation` whose message
names the offending policy type (there is no dedicated
`UnsupportedPolicyTypeError` variant in `error.rs`); a `KeywordFilter`
policy is dispatched to the keyword-filter evaluator (registered first)
and a `Performance` policy to the performance evaluator, i.e. the first
evaluator in registration order whose `supports_policy_type` accepts. -/
theorem c2_registry_dispatch {R : Type} (compile : String → Except String R)
    (captures0 : R → String → Option String) (cache : RegexCache R) (env : EvalEnv)
    (request : EvaluationRequest) (policy : Policy) :
    ((policy.policy_type = PolicyType.ContentSafety ∨ policy.policy_type = PolicyType.Semantic) →
      registryEvaluate compile captures0 cache env request policy =
        .error (.Evaluation
          ("No evaluator found for policy type: " ++ policyTypeDebug policy.policy_type))) ∧
    (policy.policy_type = PolicyType.KeywordFilter →
      registryEvaluate compile captures0 cache env request policy =
        (keywordFilterEvaluate compile captures0 cache env request policy).map Prod.fst) ∧
    (policy.policy_type = PolicyType.Performance →
      registryEvaluate compile captures0 cache env request policy =
        performanceEvaluate env request policy) := by
  refine ⟨fun h => ?_, fun h => ?_, fun h => ?_⟩
  · rcases h with h | h <;>
      simp [registryEvaluate, registryDispatch, defaultRegistry, kwSpec, perfSpec,
        kwSupports, perfSupports, List.find?, h]
  · simp [registryEvaluate, registryDispatch, defaultRegistry, kwSpec, perfSpec,
      kwSupports, perfSupports, List.find?, h]
  · simp [registryEvaluate, registryDispatch, defaultRegistry, kwSpec, perfSpec,
      kwSupports, perfSupports, List.find?, h]

/-- C2 (witness): the amended theorem applied to a concrete
`ContentSafety` policy. -/
theorem c2_witness :
    registryEvaluate toyCompile toyCaptures ([] : RegexCache String) envW reqEmpty csPolicyW =
      .error (.Evaluation "No evaluator found for policy type: ContentSafety") :=
  (c2_registry_dispatch toyCompile toyCaptures [] envW reqEmpty csPolicyW).1 (Or.inl rfl)

/-- C3 (code bug): the claim — echoing the intent of
`max_tokens.unwrap_or(u32::MAX)` — says that with `max_tokens` absent the
token-count branch of the severity test can never fire.  The `u32`
multiply `u32::MAX * 2` overflows: under release-build wrapping it yields
`2^32 - 2`, so `token_count = u32::MAX = 2^32 - 1` fires the branch and
forces `High` severity even though `quality_score = 1` is far above 0.3
(a debug build panics on the same multiply instead). -/
theorem c3_token_branch_fires_on_overflow :
    perfSeverity 1 (2 ^ 32 - 1) none = ViolationSeverity.High ∧
    (3/10 : ℚ) ≤ 1 ∧ (2 ^ 32 - 1 : Nat) > ((none : Option Nat).getD (2 ^ 32 - 1)) * 2 % 2 ^ 32 := by
  refine ⟨?_, by norm_num, by decide⟩
  unfold perfSeverity
  rw [if_pos]
  exact Or.inr (by decide)

/-- C4: `calculate_quality_score` is clamped into [0,1] for every input
string (the final `score.min(1.0).max(0.0)`), in particular for empty
content, whose empty word list takes the guarded branch that skips the
repetition division. -/
theorem c4_quality_score_in_unit_range (content : String) :
    0 ≤ calculate_quality_score content ∧ calculate_quality_score content ≤ 1 := by
  unfold calculate_quality_score
  exact ⟨le_max_right _ _, max_le (min_le_right _ _) (by norm_num)⟩

/-- C9: on the empty string the capitalization ratio is an unguarded
`0.0/0.0 = NaN` (modelled `none`), the `NaN > 0.3` comparison is false so
the penalty is skipped, and the function still returns the defined value
0.3 coming from the short-content branch. -/
theorem c9_empty_content_nan_skips_penalty :
    caps_frac "" = none ∧ gtNaN (caps_frac "") (3/10) = false ∧
    calculate_quality_score "" = 3/10 :=
  ⟨rfl, rfl, quality_score_empty⟩

/-- C5: when every pattern of a keyword-filter policy resolves (compiles
or is cached), the evaluator tests every pattern in declaration order
with no early stop — the violation list is exactly the `filterMap` of the
per-pattern match record over the whole pattern list — and returns `Pass`
exactly when no pattern matched, else a `Medium` violation with
confidence 1, the joined message, and the details payload carrying the
full violation list, the pattern count, and the case-sensitivity flag. -/
theorem c5_keyword_filter_accumulation {R : Type} (compile : String → Except String R)
    (captures0 : R → String → Option String) (cache : RegexCache R) (env : EvalEnv)
    (request : EvaluationRequest) (policy : Policy) (config : KeywordFilterConfig)
    (hconfig : policy.config = .KeywordFilter config)
    (hok : ∀ p ∈ config.patterns,
      exceptOk (resolvedRegex compile cache p config.case_sensitive) = true) :
    ∃ cache',
      keywordFilterEvaluate compile captures0 cache env request policy =
        .ok ({ id := env.freshId, request_id := request.id, policy_id := policy.id
               policy_name := policy.name, policy_type := PolicyType.KeywordFilter
               result :=
                 if (kwExpected compile captures0 cache config.case_sensitive
                     request.content config.patterns).isEmpty then
                   PolicyResult.Pass
                 else
                   PolicyResult.Violation ViolationSeverity.Medium
                     ("Keyword filter violations: " ++ String.intercalate ", "
                       (kwExpected compile captures0 cache config.case_sensitive
                         request.content config.patterns))
                     1
                     (some (.obj
                       [("violations", .arr ((kwExpected compile captures0 cache
                           config.case_sensitive request.content config.patterns).map .str)),
                        ("patterns_checked", .num (config.patterns.length : ℚ)),
                        ("case_sensitive", .bool config.case_sensitive)]))
               execution_time_ms := env.elapsedMs, timestamp := env.nowTs }, cache') ∧
      ((kwExpected compile captures0 cache config.case_sensitive
          request.content config.patterns).isEmpty = true ↔
        ∀ p ∈ config.patterns, ∀ r,
          resolvedRegex compile cache p config.case_sensitive = .ok r →
            captures0 r request.content = none) := by
  obtain ⟨cache', hloop, _⟩ :=
    @kwLoop_ok_of_all_ok R compile captures0 cache config.case_sensitive
      request.content config.patterns hok
  refine ⟨cache', ?_, ?_⟩
  · simp only [keywordFilterEvaluate, hconfig, hloop]
  · rw [List.isEmpty_iff]
    unfold kwExpected
    rw [List.filterMap_eq_nil_iff]
    constructor
    · intro hall p hp r hr
      have hrec := hall p hp
      rw [hr] at hrec
      simpa [kwRecord, Option.map_eq_none'] using hrec
    · intro hnone p hp
      have hpok := hok p hp
      cases hres : resolvedRegex compile cache p config.case_sensitive with
      | error e => simp [hres]
      | ok r =>
        simp only [hres, kwRecord, Option.map_eq_none']
        exact hnone p hp r hres

/-- C5 (witness): the theorem applied to the two-pattern fixture, where
only the first pattern matches: the result is the `Medium` violation with
confidence 1 and the full details payload; the second pattern was still
consulted (its record is merely absent because it did not match). -/
theorem c5_witness :
    ∃ cache',
      keywordFilterEvaluate toyCompile toyCaptures ([] : RegexCache String) envW reqHello
          kwTwoPatterns =
        .ok ({ id := "uuid-1", request_id := "req-1", policy_id := "pol-two"
               policy_name := "Two", policy_type := PolicyType.KeywordFilter
               result :=
                 PolicyResult.Violation ViolationSeverity.Medium
                   "Keyword filter violations: Pattern 'hello' matched: 'hello'"
                   1
                   (some (.obj
                     [("violations", .arr [.str "Pattern 'hello' matched: 'hello'"]),
                      ("patterns_checked", .num ((2 : Nat) : ℚ)),
                      ("case_sensitive", .bool true)]))
               execution_time_ms := 0, timestamp := 5 }, cache') := by
  obtain ⟨cache', heval, _⟩ :=
    c5_keyword_filter_accumulation toyCompile toyCaptures [] envW reqHello
      kwTwoPatterns _ rfl (by decide)
  exact ⟨cache', by rw [heval]; rfl⟩

/-- C6: after one successful `get_or_compile_regex` call for a key, the
repeat call returns the cached compiled pattern, leaves the cache
unchanged, and performs no compilation — the compile count over any
number of further sequential calls with that key is 0, so it stays 1
after the first compiling call; moreover the `"pattern:bool"` key string
is collision-free, and a call for one key never alters what any distinct
(pattern, case-sensitivity) pair resolves to. -/
theorem c6_cache_compile_once {R : Type} (compile : String → Except String R)
    (cache cache' : RegexCache R) (pattern : String) (cs : Bool) (r : R) (b : Bool)
    (h : getOrCompileRegex compile cache pattern cs = .ok (r, cache', b)) :
    (getOrCompileRegex compile cache' pattern cs = .ok (r, cache', false) ∧
      ∀ n, iterateCompileCount compile pattern cs n cache' = 0) ∧
    (∀ p2 cs2, cacheKey p2 cs2 = cacheKey pattern cs → p2 = pattern ∧ cs2 = cs) ∧
    (∀ p2 cs2, (p2, cs2) ≠ (pattern, cs) →
      lookupCache cache' (cacheKey p2 cs2) = lookupCache cache (cacheKey p2 cs2)) := by
  refine ⟨⟨getOrCompile_repeat h, iterateCompileCount_eq_zero h⟩, ?_, ?_⟩
  · intro p2 cs2 hk
    exact cacheKey_inj hk
  · intro p2 cs2 hne
    exact getOrCompile_preserves_other hne h

/-- C6 (witness): a first call for ("spam", case-insensitive) compiles
"(?i)spam" and inserts it; the theorem then gives that the repeat call
hits the cache and that three further calls compile nothing. -/
theorem c6_witness :
    getOrCompileRegex toyCompile [("spam:false", "(?i)spam")] "spam" false =
      .ok ("(?i)spam", [("spam:false", "(?i)spam")], false) ∧
    iterateCompileCount toyCompile "spam" false 3 [("spam:false", "(?i)spam")] = 0 := by
  have h :=
    c6_cache_compile_once toyCompile [] [("spam:false", "(?i)spam")] "spam" false
      "(?i)spam" true rfl
  exact ⟨h.1.1, h.1.2 3⟩

/-- C7 (code bug): the claim — and the spec — say the evaluation-only
interface is bounded by the caller-supplied timeout (default 5000 ms) and
yields a Timeout failure when exceeded.  `handle_evaluate` parses the
`--timeout` argument (default 5000) but never consults it: the aggregated
results are identical for every timeout value, and with a budget of 0 ms
— which any run exceeds — both evaluator results are still produced and
no failure of any kind is returned (the `error.rs` enum does not even
have a Timeout variant). -/
theorem c7_timeout_never_consulted :
    (∀ (kwOutcome perfOutcome : Except Error EvaluationResult) (t1 t2 : Nat),
      handleEvaluateResults kwOutcome perfOutcome t1 =
        handleEvaluateResults kwOutcome perfOutcome t2) ∧
    evaluateDefaultTimeout = 5000 ∧
    (∀ r1 r2 : EvaluationResult, handleEvaluateResults (.ok r1) (.ok r2) 0 = [r1, r2]) :=
  ⟨fun _ _ _ _ => rfl, rfl, fun _ _ => rfl⟩

/-- C8: a pattern that fails to compile aborts the whole keyword-filter
evaluation with that compile error: no `EvaluationResult` is produced (so
matches already found for earlier patterns are discarded with it), and
the outcome is the same whatever patterns follow the invalid one — they
are never tested. -/
theorem c8_invalid_pattern_aborts_policy {R : Type} (compile : String → Except String R)
    (captures0 : R → String → Option String) (cache : RegexCache R) (env : EvalEnv)
    (request : EvaluationRequest) (cs : Bool) (pre : List String) (bad : String) (e : Error)
    (hpre : ∀ p ∈ pre, exceptOk (resolvedRegex compile cache p cs) = true)
    (hbad : resolvedRegex compile cache bad cs = .error e) :
    ∀ (rest : List String) (policy : Policy) (config : KeywordFilterConfig),
      policy.config = .KeywordFilter config →
      config.patterns = pre ++ bad :: rest →
      config.case_sensitive = cs →
      keywordFilterEvaluate compile captures0 cache env request policy = .error e := by
  intro rest policy config hconfig hpat hcs
  simp only [keywordFilterEvaluate, hconfig, hpat, hcs,
    @kwLoop_error_of_bad R compile captures0 cache cs request.content pre bad e hpre hbad rest]

/-- C8 (witness): the three-pattern fixture whose middle pattern "(" fails
to compile: the first pattern does match the content, yet the whole
evaluation returns the compile error and no result. -/
theorem c8_witness :
    keywordFilterEvaluate toyCompile toyCaptures ([] : RegexCache String) envW reqHello
        kwPreBadPolicy =
      .error (.Regex "regex parse error: unclosed group") := by
  have hbad : resolvedRegex toyCompile ([] : RegexCache String) "(" true =
      .error (.Regex "regex parse error: unclosed group") := rfl
  exact
    c8_invalid_pattern_aborts_policy toyCompile toyCaptures [] envW reqHello true
      ["hello"] "(" _ (by decide) hbad ["bye"] kwPreBadPolicy _ rfl rfl rfl

/-- C10: for a policy its config admits, the produced result's
`policy_type` is the evaluator's own constant — `KeywordFilter` for the
keyword evaluator, `Performance` for the performance evaluator — however
the input policy's `policy_type` field is set, while `id`, `request_id`,
`policy_id` and `policy_name` are copied from the environment, the
request and the policy. -/
theorem c10_policy_type_fixed_by_evaluator {R : Type} (compile : String → Except String R)
    (captures0 : R → String → Option String) (cache : RegexCache R) (env : EvalEnv)
    (request : EvaluationRequest) (policy : Policy) :
    (∀ config, policy.config = .KeywordFilter config →
      ∀ res cache2,
        keywordFilterEvaluate compile captures0 cache env request policy = .ok (res, cache2) →
          res.policy_type = PolicyType.KeywordFilter ∧ res.id = env.freshId ∧
            res.request_id = request.id ∧ res.policy_id = policy.id ∧
            res.policy_name = policy.name) ∧
    (∀ config, policy.config = .Performance config →
      ∀ res, performanceEvaluate env request policy = .ok res →
        res.policy_type = PolicyType.Performance ∧ res.id = env.freshId ∧
          res.request_id = request.id ∧ res.policy_id = policy.id ∧
          res.policy_name = policy.name) := by
  constructor
  · intro config hconfig res cache2 heval
    simp only [keywordFilterEvaluate, hconfig] at heval
    cases hloop : kwLoop compile captures0 request.content config.case_sensitive
        config.patterns cache with
    | error e =>
      simp only [hloop] at heval
      exact Except.noConfusion heval
    | ok pair =>
      obtain ⟨violations, cache3⟩ := pair
      simp only [hloop, Except.ok.injEq, Prod.mk.injEq] at heval
      obtain ⟨hres, -⟩ := heval
      subst hres
      exact ⟨rfl, rfl, rfl, rfl, rfl⟩
  · intro config hconfig res heval
    simp only [performanceEvaluate, hconfig, Except.ok.injEq] at heval
    subst heval
    exact ⟨rfl, rfl, rfl, rfl, rfl⟩

/-- C10 (witness): the theorem applied to a policy whose declared
`policy_type` is `Semantic` but whose config is the keyword-filter
variant: the produced result nevertheless carries `KeywordFilter`,
showing the field is not copied from the input policy. -/
theorem c10_witness :
    kwSemMismatch.policy_type = PolicyType.Semantic ∧
    ∃ res cache2,
      keywordFilterEvaluate toyCompile toyCaptures ([] : RegexCache String) envW reqHello
          kwSemMismatch = .ok (res, cache2) ∧
        res.policy_type = PolicyType.KeywordFilter ∧ res.id = "uuid-1" ∧
        res.request_id = "req-1" ∧ res.policy_id = "pol-kw" ∧ res.policy_name = "KW" := by
  refine ⟨rfl, ?_⟩
  have heval :
      keywordFilterEvaluate toyCompile toyCaptures ([] : RegexCache String) envW reqHello
          kwSemMismatch =
        .ok ({ id := "uuid-1", request_id := "req-1", policy_id := "pol-kw"
               policy_name := "KW", policy_type := PolicyType.KeywordFilter
               result :=
                 PolicyResult.Violation ViolationSeverity.Medium
                   "Keyword filter violations: Pattern 'hello' matched: 'hello'"
                   1
                   (some (.obj
                     [("violations", .arr [.str "Pattern 'hello' matched: 'hello'"]),
                      ("patterns_checked", .num ((1 : Nat) : ℚ)),
                      ("case_sensitive", .bool true)]))
               execution_time_ms := 0, timestamp := 5 },
          [(cacheKey "hello" true, "hello")]) := rfl
  exact ⟨_, _, heval,
    (c10_policy_type_fixed_by_evaluator toyCompile toyCaptures [] envW reqHello
        kwSemMismatch).1 _ rfl _ _ heval⟩

end Sentinel
